import Mathlib

/-
  Shallow embedding of src/ServeMe.hpp (a minimal single-process HTTP
  responder).  Pure request-handling logic is embedded as Lean functions;
  the asynchronous connection lifecycle (the do_read / do_write completion
  handlers) is embedded as an explicit state machine emitting transport
  actions; the filesystem is an explicit String -> Option String map;
  logging is modelled by returning the list of emitted log entries.
-/

set_option autoImplicit false

namespace ServeMe

/-- Log severities, from `enum class Level` in ServeMe.hpp. -/
inductive Level
  | Debug
  | Info
  | Warning
  | Error
  | Critical
deriving DecidableEq, Repr

/-- HTTP methods, from `enum class Method` in ServeMe.hpp. -/
inductive Method
  | GET
  | POST
deriving DecidableEq, Repr

/-- A log record: severity and message (the input of the Logger collaborator). -/
abbrev LogEntry := Level × String

/-- The file-reference marker; the source names this string `filePrefix`. -/
def fileMarker : String := "@file:"

/-- The filesystem as seen by `std::ifstream`: a path either opens to its
contents or fails to open. -/
abbrev FS := String → Option String

/-- Model of `CACHE` = `std::unordered_map<std::string, std::string>`:
rendered responses keyed by the raw request-method token string. -/
abbrev Cache := List (String × String)

/-- Model of `endpoints` =
`std::unordered_map<std::string, std::pair<std::string, Method>>`:
response source and method keyed by path. -/
abbrev Endpoints := List (String × String × Method)

/-- Model of `Templates::Responses::OK`: builds the 200 response.
`body.length()` in C++ counts bytes, hence `utf8ByteSize`.  The source gives
`content_type` the default value "text/html"; the session always calls the
template with that default. -/
def respOK (body content_type : String) : String :=
  "HTTP/1.1 200 OK\r\nContent-Length: " ++ toString body.utf8ByteSize ++
    "\r\nContent-Type: " ++ content_type ++ "\r\n\r\n" ++ body

/-- The default `body` argument of `Templates::Responses::NOT_OK`. -/
def notOkDefaultBody : String := "404 Not Found!"

/-- Model of `Templates::Responses::NOT_OK`: builds the 404 response with the
literal `Content-Length: 14`, whatever `body` is. -/
def respNotOk (body : String) : String :=
  "HTTP/1.1 404 Not Found\r\nContent-Length: 14\r\n\r\n" ++ body

/-- Model of `readFileIntoString`: opens `filename`; on failure logs an Error
("Can not open file " + filename) and yields "", otherwise yields the whole
contents. -/
def readFileIntoString (filename : String) (fs : FS) : String × List LogEntry :=
  match fs filename with
  | none => ("", [(Level.Error, "Can not open file " ++ filename)])
  | some content => (content, [])

/-- Model of `getBody`: if `str` starts with the file marker
(`str.substr(0, marker.size()) == marker`), read the file named by the
remainder at request time; otherwise return `str` verbatim. -/
def getBody (str : String) (fs : FS) : String × List LogEntry :=
  if str.take fileMarker.length = fileMarker then
    readFileIntoString (str.drop fileMarker.length) fs
  else
    (str, [])

/-- Model of `HttpServer::addEndpoint`:
`endpoints_[path] = make_pair(response, method)` — inserts or overwrites the
unique entry for `path`. -/
def addEndpoint (eps : Endpoints) (path response : String) (m : Method) : Endpoints :=
  (path, response, m) :: eps.filter (fun e => e.fst != path)

/-- Model of `(method == "GET" ? Method::GET : Method::POST)`: the request
method token is coerced to the enum; every token other than "GET" becomes
POST. -/
def parseMethod (tok : String) : Method :=
  if tok = "GET" then Method.GET else Method.POST

/-- Model of `cache.insert(make_pair(method, response))`:
`std::unordered_map::insert` adds the pair only when the key is absent. -/
def cacheInsert (c : Cache) (k v : String) : Cache :=
  match List.lookup k c with
  | some _ => c
  | none => (k, v) :: c

/-- The routing condition of `do_read`:
`it != endpoints_.end() && (method=="GET" ? GET : POST) == it->second.second`. -/
def isMatch (eps : Endpoints) (tok path : String) : Bool :=
  match List.lookup path eps with
  | some (_, m) => parseMethod tok = m
  | none => false

/-- What one completed request produces: the response string written back,
the cache as left behind, and the log entries emitted. -/
structure Outcome where
  response : String
  cache : Cache
  logs : List LogEntry
deriving DecidableEq, Repr

/-- The `else` branch of the routing in `do_read`: `do_write(NOT_OK())` plus
the Error log. -/
def notFoundOutcome (cache : Cache) (tok path : String) : Outcome :=
  ⟨respNotOk notOkDefaultBody, cache,
    [(Level.Error, "No endpoint with name " ++ path ++ " and method " ++ tok)]⟩

/-- The body of the completion handler in `HttpSession::do_read`, after the
request line has been split into a method token and a path: route against the
registry, serve from the cache on an enabled hit, otherwise resolve the body,
render the 200 response and (when caching is enabled) insert it keyed by the
raw method token. -/
def handleRequest (enableCache : Bool) (eps : Endpoints) (cache : Cache)
    (fs : FS) (tok path : String) : Outcome :=
  match List.lookup path eps with
  | some (src, m) =>
    if parseMethod tok = m then
      match (if enableCache then List.lookup tok cache else none) with
      | some cached =>
        ⟨cached, cache,
          [(Level.Info, "Endpoint " ++ path ++ " of type " ++ tok ++ " responsing...")]⟩
      | none =>
        let resolved := getBody src fs
        let response := respOK resolved.fst "text/html"
        ⟨response,
          (if enableCache then cacheInsert cache tok response else cache),
          resolved.snd ++
            [(Level.Info, "Endpoint " ++ path ++ " of type " ++ tok ++ " responsing...")]⟩
    else notFoundOutcome cache tok path
  | none => notFoundOutcome cache tok path

/-- Fold `handleRequest` over a sequence of (method token, path) requests,
threading the shared cache; each request is one accepted session. -/
def runRequests (enableCache : Bool) (eps : Endpoints) (fs : FS) :
    Cache → List (String × String) → Cache
  | cache, [] => cache
  | cache, (tok, path) :: rest =>
      runRequests enableCache eps fs
        (handleRequest enableCache eps cache fs tok path).cache rest

/-- Transport operations a session issues on its socket: the single
`async_read_until`, the single `async_write`, and the final
`shutdown(shutdown_both)`. -/
inductive Action
  | issueRead
  | issueWrite (response : String)
  | shutdownBoth
deriving DecidableEq, Repr

/-- Session position in its lifecycle: awaiting the read completion issued by
`do_read`, awaiting the write completion issued by `do_write`, or finished
(the `shared_ptr` self-reference is dropped and the object dies). -/
inductive SState
  | awaitingRead
  | awaitingWrite
  | closed
deriving DecidableEq, Repr

/-- Completion events delivered by the reactor: the read completes with a
parsed request line (method token and path) or an error; the write completes
successfully or with an error. -/
inductive NetEvent
  | readOk (tok path : String)
  | readErr
  | writeOk
  | writeErr
deriving DecidableEq, Repr

/-- Model of `HttpSession::start()`: calls `do_read()`, which issues the one
and only `async_read_until` of the session. -/
def sessionStart : SState × List Action :=
  (SState.awaitingRead, [Action.issueRead])

/-- One completion-handler dispatch.  Mirrors the two lambdas in
`do_read`/`do_write`: a successful read routes the request and issues the
write; a failed read only logs; a successful write shuts the socket down in
both directions; a failed write only logs.  Completions for operations the
session never issued cannot occur; they are modelled as inert. -/
def sessionStep (enableCache : Bool) (eps : Endpoints) (fs : FS)
    (st : SState) (cache : Cache) (ev : NetEvent) : SState × Cache × List Action :=
  match st, ev with
  | SState.awaitingRead, NetEvent.readOk tok path =>
      (SState.awaitingWrite,
       (handleRequest enableCache eps cache fs tok path).cache,
       [Action.issueWrite (handleRequest enableCache eps cache fs tok path).response])
  | SState.awaitingRead, NetEvent.readErr => (SState.closed, cache, [])
  | SState.awaitingWrite, NetEvent.writeOk => (SState.closed, cache, [Action.shutdownBoth])
  | SState.awaitingWrite, NetEvent.writeErr => (SState.closed, cache, [])
  | _, _ => (SState.closed, cache, [])

/-- Run a session from a state over a sequence of completion events,
collecting every transport action it issues. -/
def sessionRun (enableCache : Bool) (eps : Endpoints) (fs : FS) :
    SState → Cache → List NetEvent → SState × Cache × List Action
  | st, cache, [] => (st, cache, [])
  | st, cache, ev :: rest =>
      let s := sessionStep enableCache eps fs st cache ev
      let r := sessionRun enableCache eps fs s.fst s.snd.fst rest
      (r.fst, r.snd.fst, s.snd.snd ++ r.snd.snd)

/-- The full action trace of one connection: `start()` issues the read, then
the completion events dispatched by the reactor drive the machine. -/
def sessionActions (enableCache : Bool) (eps : Endpoints) (fs : FS)
    (cache : Cache) (evs : List NetEvent) : List Action :=
  sessionStart.snd ++
    (sessionRun enableCache eps fs sessionStart.fst cache evs).snd.snd

/- Concrete fixtures used by witnesses and counterexamples. -/

/-- A filesystem on which no path opens. -/
def noFS : FS := fun _ => none

/-- Registry fixture: `/a` serves "A" on GET, `/b` serves "B" on POST. -/
def epsAB : Endpoints :=
  addEndpoint (addEndpoint [] "/a" "A" Method.GET) "/b" "B" Method.POST

/-- Registry fixture: `/a` serves "A" on GET, `/b` serves "Bee" on GET. -/
def epsGG : Endpoints :=
  addEndpoint (addEndpoint [] "/a" "A" Method.GET) "/b" "Bee" Method.GET

/- Helper lemmas about the embedded operations. -/

theorem lookup_addEndpoint_self (eps : Endpoints) (p s : String) (m : Method) :
    List.lookup p (addEndpoint eps p s m) = some (s, m) := by
  simp [addEndpoint, List.lookup]

theorem not_mem_keys_of_lookup_none {k : String} {c : Cache}
    (h : List.lookup k c = none) : k ∉ c.map Prod.fst := by
  induction c with
  | nil => simp
  | cons a t ih =>
    simp only [List.lookup] at h
    by_cases hk : k == a.fst
    · simp [hk] at h
    · have hne : k ≠ a.fst := by simpa using hk
      simp only [List.map, List.mem_cons] at *
      rcases h with h
      intro hmem
      rcases hmem with h1 | h2
      · exact hne h1
      · exact ih (by simpa [hk] using h) h2

theorem handleRequest_not_match (ec : Bool) (eps : Endpoints) (cache : Cache)
    (fs : FS) (tok path : String) (h : isMatch eps tok path = false) :
    handleRequest ec eps cache fs tok path = notFoundOutcome cache tok path := by
  unfold handleRequest
  unfold isMatch at h
  cases hl : List.lookup path eps with
  | none => simp [hl]
  | some sm =>
    obtain ⟨src, m⟩ := sm
    rw [hl] at h
    simp only [decide_eq_false_iff_not] at h
    simp [hl, h]

theorem handleRequest_hit (eps : Endpoints) (cache : Cache) (fs : FS)
    (tok path src r : String) (m : Method)
    (hl : List.lookup path eps = some (src, m)) (hm : parseMethod tok = m)
    (hc : List.lookup tok cache = some r) :
    handleRequest true eps cache fs tok path =
      ⟨r, cache,
        [(Level.Info, "Endpoint " ++ path ++ " of type " ++ tok ++ " responsing...")]⟩ := by
  unfold handleRequest
  simp [hl, hm, hc]

theorem handleRequest_miss (ec : Bool) (eps : Endpoints) (cache : Cache) (fs : FS)
    (tok path src : String) (m : Method)
    (hl : List.lookup path eps = some (src, m)) (hm : parseMethod tok = m)
    (hc : (if ec then List.lookup tok cache else none) = none) :
    handleRequest ec eps cache fs tok path =
      ⟨respOK (getBody src fs).fst "text/html",
        (if ec then
          cacheInsert cache tok (respOK (getBody src fs).fst "text/html")
         else cache),
        (getBody src fs).snd ++
          [(Level.Info, "Endpoint " ++ path ++ " of type " ++ tok ++ " responsing...")]⟩ := by
  unfold handleRequest
  simp [hl, hm, hc]

theorem lookup_cacheInsert_self (c : Cache) (k v : String)
    (h : List.lookup k c = none) : List.lookup k (cacheInsert c k v) = some v := by
  simp [cacheInsert, h, List.lookup]

theorem handleRequest_cache_characterize (ec : Bool) (eps : Endpoints)
    (cache : Cache) (fs : FS) (tok path : String) :
    (handleRequest ec eps cache fs tok path).cache = cache ∨
    ∃ src m, List.lookup path eps = some (src, m) ∧ parseMethod tok = m ∧
      ec = true ∧ List.lookup tok cache = none ∧
      (handleRequest ec eps cache fs tok path).cache =
        (tok, respOK (getBody src fs).fst "text/html") :: cache := by
  cases hl : List.lookup path eps with
  | none =>
    left
    simp [handleRequest, hl, notFoundOutcome]
  | some sm =>
    obtain ⟨src, m⟩ := sm
    by_cases hm : parseMethod tok = m
    · cases ec with
      | false =>
        left
        rw [handleRequest_miss false eps cache fs tok path src m hl hm (by simp)]
        simp
      | true =>
        cases hc : List.lookup tok cache with
        | some r =>
          left
          rw [handleRequest_hit eps cache fs tok path src r m hl hm hc]
        | none =>
          right
          refine ⟨src, m, rfl, hm, rfl, rfl, ?_⟩
          rw [handleRequest_miss true eps cache fs tok path src m hl hm (by simp [hc])]
          simp [cacheInsert, hc]
    · left
      have h : isMatch eps tok path = false := by simp [isMatch, hl, hm]
      rw [handleRequest_not_match ec eps cache fs tok path h]
      rfl

theorem keys_nodup_handleRequest (ec : Bool) (eps : Endpoints) (cache : Cache)
    (fs : FS) (tok path : String)
    (h : (cache.map Prod.fst).Nodup) :
    (((handleRequest ec eps cache fs tok path).cache).map Prod.fst).Nodup := by
  rcases handleRequest_cache_characterize ec eps cache fs tok path with
    hc | ⟨src, m, _, _, _, hnone, hc⟩
  · rw [hc]; exact h
  · rw [hc]
    simp only [List.map, List.nodup_cons]
    exact ⟨not_mem_keys_of_lookup_none hnone, h⟩

theorem keys_nodup_runRequests (ec : Bool) (eps : Endpoints) (fs : FS) :
    ∀ (reqs : List (String × String)) (cache : Cache),
      (cache.map Prod.fst).Nodup →
      ((runRequests ec eps fs cache reqs).map Prod.fst).Nodup := by
  intro reqs
  induction reqs with
  | nil => intro cache h; simpa [runRequests] using h
  | cons r rest ih =>
    intro cache h
    obtain ⟨tok, path⟩ := r
    simp only [runRequests]
    exact ih _ (keys_nodup_handleRequest ec eps cache fs tok path h)

theorem sessionRun_closed (ec : Bool) (eps : Endpoints) (fs : FS) :
    ∀ (evs : List NetEvent) (cache : Cache),
      sessionRun ec eps fs SState.closed cache evs = (SState.closed, cache, []) := by
  intro evs
  induction evs with
  | nil => intro cache; rfl
  | cons ev rest ih =>
    intro cache
    cases ev <;> simp [sessionRun, sessionStep, ih]

theorem sessionStep_no_read (ec : Bool) (eps : Endpoints) (fs : FS)
    (st : SState) (cache : Cache) (ev : NetEvent) :
    Action.issueRead ∉ (sessionStep ec eps fs st cache ev).snd.snd := by
  cases st <;> cases ev <;> simp [sessionStep]

theorem sessionRun_no_read (ec : Bool) (eps : Endpoints) (fs : FS) :
    ∀ (evs : List NetEvent) (st : SState) (cache : Cache),
      Action.issueRead ∉ (sessionRun ec eps fs st cache evs).snd.snd := by
  intro evs
  induction evs with
  | nil => intro st cache; simp [sessionRun]
  | cons ev rest ih =>
    intro st cache
    simp only [sessionRun, List.mem_append]
    push_neg
    exact ⟨sessionStep_no_read ec eps fs st cache ev, ih _ _⟩

/- Claim theorems. -/

/-- Claim C1: with caching enabled, the cache is keyed by the request method
alone.  For any registry holding GET endpoints at `pathA` (source `srcA`) and
`pathB` (source `srcB`), and any cache with no "GET" entry yet, a first
`GET pathA` renders and returns the response for `srcA` and stores it under
the key "GET"; a subsequent `GET pathB` returns that first rendered response
verbatim, ignoring `srcB`, and leaves the cache unchanged (so every later
matching GET request keeps returning it). -/
theorem c1_cache_keyed_by_method_serves_first (eps : Endpoints) (fs : FS)
    (cache : Cache) (pathA pathB srcA srcB : String)
    (hA : List.lookup pathA eps = some (srcA, Method.GET))
    (hB : List.lookup pathB eps = some (srcB, Method.GET))
    (hc : List.lookup "GET" cache = none) :
    (handleRequest true eps cache fs "GET" pathA).response =
      respOK (getBody srcA fs).fst "text/html" ∧
    List.lookup "GET" (handleRequest true eps cache fs "GET" pathA).cache =
      some ((handleRequest true eps cache fs "GET" pathA).response) ∧
    (handleRequest true eps (handleRequest true eps cache fs "GET" pathA).cache fs
        "GET" pathB).response =
      (handleRequest true eps cache fs "GET" pathA).response ∧
    (handleRequest true eps (handleRequest true eps cache fs "GET" pathA).cache fs
        "GET" pathB).cache =
      (handleRequest true eps cache fs "GET" pathA).cache := by
  have hmg : parseMethod "GET" = Method.GET := rfl
  have h1 : handleRequest true eps cache fs "GET" pathA =
      ⟨respOK (getBody srcA fs).fst "text/html",
        ("GET", respOK (getBody srcA fs).fst "text/html") :: cache,
        (getBody srcA fs).snd ++
          [(Level.Info, "Endpoint " ++ pathA ++ " of type " ++ "GET" ++ " responsing...")]⟩ := by
    rw [handleRequest_miss true eps cache fs "GET" pathA srcA Method.GET hA hmg (by simp [hc])]
    simp [cacheInsert, hc]
  rw [h1]
  dsimp only
  have hc2 : List.lookup "GET"
      (("GET", respOK (getBody srcA fs).fst "text/html") :: cache) =
      some (respOK (getBody srcA fs).fst "text/html") := by simp [List.lookup]
  refine ⟨rfl, hc2, ?_, ?_⟩
  · rw [handleRequest_hit eps _ fs "GET" pathB srcB _ Method.GET hB hmg hc2]
  · rw [handleRequest_hit eps _ fs "GET" pathB srcB _ Method.GET hB hmg hc2]

/-- Witness for C1, at the fixture registry with GET endpoints `/a` ("A") and
`/b` ("Bee") and the empty cache. -/
theorem c1_cache_keyed_by_method_serves_first_witness :
    (handleRequest true epsGG [] noFS "GET" "/a").response =
      respOK (getBody "A" noFS).fst "text/html" ∧
    List.lookup "GET" (handleRequest true epsGG [] noFS "GET" "/a").cache =
      some ((handleRequest true epsGG [] noFS "GET" "/a").response) ∧
    (handleRequest true epsGG (handleRequest true epsGG [] noFS "GET" "/a").cache noFS
        "GET" "/b").response =
      (handleRequest true epsGG [] noFS "GET" "/a").response ∧
    (handleRequest true epsGG (handleRequest true epsGG [] noFS "GET" "/a").cache noFS
        "GET" "/b").cache =
      (handleRequest true epsGG [] noFS "GET" "/a").cache :=
  c1_cache_keyed_by_method_serves_first epsGG noFS [] "/a" "/b" "A" "Bee"
    (by decide) (by decide) rfl

/-- Claim C2 counterexample: "DELETE" is neither "GET" nor "POST", yet a
`DELETE /b` request against a registry whose `/b` endpoint is registered for
POST is served as a match — a 200 response with body "B" — not the fixed
not-found response the claim requires. -/
theorem c2_other_methods_counterexample :
    ("DELETE" ≠ "GET" ∧ "DELETE" ≠ "POST") ∧
    List.lookup "/b" epsAB = some ("B", Method.POST) ∧
    (handleRequest false epsAB [] noFS "DELETE" "/b").response ≠ respNotOk notOkDefaultBody ∧
    (handleRequest false epsAB [] noFS "DELETE" "/b").response =
      "HTTP/1.1 200 OK\r\nContent-Length: 1\r\nContent-Type: text/html\r\n\r\nB" := by
  exact ⟨⟨by decide, by decide⟩, by decide, by decide, by decide⟩

/-- Claim C2 as amended: a request whose method token is not "GET" is coerced
to POST.  It is served as a match whenever the requested path is registered
with method POST; it returns the fixed not-found response exactly when the
path is unregistered or registered with method GET. -/
theorem c2_other_methods_amended (tok : String) (hne : tok ≠ "GET") :
    parseMethod tok = Method.POST ∧
    (∀ (eps : Endpoints) (path src : String),
        List.lookup path eps = some (src, Method.POST) →
        isMatch eps tok path = true ∧
        ∀ (cache : Cache) (fs : FS),
          (handleRequest false eps cache fs tok path).response =
            respOK (getBody src fs).fst "text/html") ∧
    (∀ (ec : Bool) (eps : Endpoints) (cache : Cache) (fs : FS) (path : String),
        (List.lookup path eps = none →
          (handleRequest ec eps cache fs tok path).response = respNotOk notOkDefaultBody) ∧
        (∀ src, List.lookup path eps = some (src, Method.GET) →
          (handleRequest ec eps cache fs tok path).response = respNotOk notOkDefaultBody)) := by
  have hp : parseMethod tok = Method.POST := by simp [parseMethod, hne]
  refine ⟨hp, ?_, ?_⟩
  · intro eps path src hl
    refine ⟨by simp [isMatch, hl, hp], ?_⟩
    intro cache fs
    rw [handleRequest_miss false eps cache fs tok path src Method.POST hl hp (by simp)]
  · intro ec eps cache fs path
    constructor
    · intro hl
      rw [handleRequest_not_match ec eps cache fs tok path (by simp [isMatch, hl])]
      rfl
    · intro src hl
      rw [handleRequest_not_match ec eps cache fs tok path (by simp [isMatch, hl, hp])]
      rfl

/-- Witness for the amended C2, at token "DELETE" and the fixture registry:
`DELETE /b` (registered POST) is matched and served, `DELETE /a` (registered
GET) gets the fixed not-found response. -/
theorem c2_other_methods_amended_witness :
    parseMethod "DELETE" = Method.POST ∧
    isMatch epsAB "DELETE" "/b" = true ∧
    (handleRequest false epsAB [] noFS "DELETE" "/b").response =
      respOK (getBody "B" noFS).fst "text/html" ∧
    (handleRequest false epsAB [] noFS "DELETE" "/a").response =
      respNotOk notOkDefaultBody := by
  have h := c2_other_methods_amended "DELETE" (by decide)
  have h2 := h.2.1 epsAB "/b" "B" (by decide)
  exact ⟨h.1, h2.1, h2.2 [] noFS, (h.2.2 false epsAB [] noFS "/a").2 "A" (by decide)⟩

/-- Claim C3 counterexample: after the request sequence `GET /a`, `POST /b`,
`DELETE /b` against the fixture registry, the cache holds three entries with
the three distinct keys "DELETE", "POST" and "GET" — more than the two the
claim allows. -/
theorem c3_at_most_two_entries_counterexample :
    2 < (runRequests true epsAB noFS []
          [("GET", "/a"), ("POST", "/b"), ("DELETE", "/b")]).length ∧
    (runRequests true epsAB noFS []
          [("GET", "/a"), ("POST", "/b"), ("DELETE", "/b")]).map Prod.fst =
      ["DELETE", "POST", "GET"] := by
  exact ⟨by decide, by decide⟩

/-- Claim C3 as amended: the cache is keyed by the raw request-method token,
holding at most one entry per distinct token; since tokens other than "GET"
and "POST" can match (they are coerced to POST), more than two entries are
reachable.  Formally: after any request sequence from the empty cache, the
cache keys are pairwise distinct. -/
theorem c3_at_most_two_entries_amended (ec : Bool) (eps : Endpoints) (fs : FS)
    (reqs : List (String × String)) :
    ((runRequests ec eps fs [] reqs).map Prod.fst).Nodup :=
  keys_nodup_runRequests ec eps fs reqs [] (by simp)

/-- Claim C4: the not-found template carries the literal `Content-Length: 14`
whatever body it is given, and every non-matching request (unregistered path,
or registered method differing from the coerced request method) is answered
with exactly that fixed response built from the default body. -/
theorem c4_fixed_not_found_content_length :
    (∀ b : String, respNotOk b =
        "HTTP/1.1 404 Not Found\r\nContent-Length: 14\r\n\r\n" ++ b) ∧
    (∀ (ec : Bool) (eps : Endpoints) (cache : Cache) (fs : FS) (tok path : String),
        isMatch eps tok path = false →
        (handleRequest ec eps cache fs tok path).response =
          "HTTP/1.1 404 Not Found\r\nContent-Length: 14\r\n\r\n" ++ notOkDefaultBody) := by
  refine ⟨fun b => rfl, ?_⟩
  intro ec eps cache fs tok path h
  rw [handleRequest_not_match ec eps cache fs tok path h]
  rfl

/-- Witness for C4, at a request for the unregistered path `/missing`. -/
theorem c4_fixed_not_found_content_length_witness :
    isMatch epsAB "GET" "/missing" = false ∧
    (handleRequest true epsAB [] noFS "GET" "/missing").response =
      "HTTP/1.1 404 Not Found\r\nContent-Length: 14\r\n\r\n" ++ notOkDefaultBody :=
  ⟨by decide, c4_fixed_not_found_content_length.2 true epsAB [] noFS "GET" "/missing" (by decide)⟩

/-- Claim C5: with caching disabled, a request matching a registered
(path, method) pair returns a 200 response whose Content-Length equals the
exact byte length of the resolved body and whose Content-Type is the default
text/html. -/
theorem c5_ok_response_exact_content_length (eps : Endpoints) (cache : Cache)
    (fs : FS) (tok path src : String) (m : Method)
    (hl : List.lookup path eps = some (src, m)) (hm : parseMethod tok = m) :
    (handleRequest false eps cache fs tok path).response =
      "HTTP/1.1 200 OK\r\nContent-Length: " ++
        toString (getBody src fs).fst.utf8ByteSize ++
        "\r\nContent-Type: " ++ "text/html" ++ "\r\n\r\n" ++ (getBody src fs).fst := by
  rw [handleRequest_miss false eps cache fs tok path src m hl hm (by simp)]
  rfl

/-- Witness for C5, at `GET /a` against the fixture registry. -/
theorem c5_ok_response_exact_content_length_witness :
    (handleRequest false epsAB [] noFS "GET" "/a").response =
      "HTTP/1.1 200 OK\r\nContent-Length: " ++
        toString (getBody "A" noFS).fst.utf8ByteSize ++
        "\r\nContent-Type: " ++ "text/html" ++ "\r\n\r\n" ++ (getBody "A" noFS).fst :=
  c5_ok_response_exact_content_length epsAB [] noFS "GET" "/a" "A" Method.GET
    (by decide) rfl

/-- Claim C6: the resolver returns any string without the file marker
verbatim; a marked string names a file read at request time; when the file
does not open, an Error is logged naming the file and the body is empty, and
a matching request still produces the 200 response with that empty body
(with the Error entry among its logs). -/
theorem c6_resolver_file_fallback :
    (∀ (s : String) (fs : FS), s.take fileMarker.length ≠ fileMarker →
        getBody s fs = (s, [])) ∧
    (∀ (s : String) (fs : FS) (content : String),
        s.take fileMarker.length = fileMarker →
        fs (s.drop fileMarker.length) = some content →
        getBody s fs = (content, [])) ∧
    (∀ (s : String) (fs : FS),
        s.take fileMarker.length = fileMarker →
        fs (s.drop fileMarker.length) = none →
        getBody s fs =
          ("", [(Level.Error, "Can not open file " ++ s.drop fileMarker.length)])) ∧
    (∀ (eps : Endpoints) (cache : Cache) (fs : FS) (tok path src : String) (m : Method),
        List.lookup path eps = some (src, m) → parseMethod tok = m →
        src.take fileMarker.length = fileMarker →
        fs (src.drop fileMarker.length) = none →
        (handleRequest false eps cache fs tok path).response = respOK "" "text/html" ∧
        (Level.Error, "Can not open file " ++ src.drop fileMarker.length) ∈
          (handleRequest false eps cache fs tok path).logs) := by
  refine ⟨?_, ?_, ?_, ?_⟩
  · intro s fs h
    simp [getBody, h]
  · intro s fs content h hf
    simp [getBody, h, readFileIntoString, hf]
  · intro s fs h hf
    simp [getBody, h, readFileIntoString, hf]
  · intro eps cache fs tok path src m hl hm h hf
    have hb : getBody src fs =
        ("", [(Level.Error, "Can not open file " ++ src.drop fileMarker.length)]) := by
      simp [getBody, h, readFileIntoString, hf]
    rw [handleRequest_miss false eps cache fs tok path src m hl hm (by simp)]
    constructor
    · simp [hb]
    · simp [hb]

/-- Witness for C6: the marked source "@file:/x" on a filesystem with no
files resolves to the empty body plus the Error log entry, and the unmarked
source "plain" resolves verbatim. -/
theorem c6_resolver_file_fallback_witness :
    getBody "@file:/x" noFS =
      ("", [(Level.Error, "Can not open file " ++ String.drop "@file:/x" fileMarker.length)]) ∧
    getBody "plain" noFS = ("plain", []) :=
  ⟨c6_resolver_file_fallback.2.2.1 "@file:/x" noFS (by decide) rfl,
   c6_resolver_file_fallback.1 "plain" noFS (by decide)⟩

/-- Claim C7: registering a path twice overwrites the prior response source
and method — the registry afterwards maps the path to the latest pair only,
and a subsequent matching request (caching disabled) is served from the
latest response source. -/
theorem c7_reregistration_overwrites (eps : Endpoints) (p s1 s2 : String)
    (m1 m2 : Method) :
    List.lookup p (addEndpoint (addEndpoint eps p s1 m1) p s2 m2) = some (s2, m2) ∧
    ∀ (tok : String) (cache : Cache) (fs : FS), parseMethod tok = m2 →
      (handleRequest false (addEndpoint (addEndpoint eps p s1 m1) p s2 m2)
          cache fs tok p).response =
        respOK (getBody s2 fs).fst "text/html" := by
  refine ⟨lookup_addEndpoint_self _ p s2 m2, ?_⟩
  intro tok cache fs hm
  rw [handleRequest_miss false _ cache fs tok p s2 m2
        (lookup_addEndpoint_self _ p s2 m2) hm (by simp)]

/-- Witness for C7: `/a` registered as ("old", GET) then ("new", POST); the
registry holds the latest pair and `POST /a` serves "new". -/
theorem c7_reregistration_overwrites_witness :
    List.lookup "/a" (addEndpoint (addEndpoint [] "/a" "old" Method.GET)
        "/a" "new" Method.POST) = some ("new", Method.POST) ∧
    (handleRequest false (addEndpoint (addEndpoint [] "/a" "old" Method.GET)
        "/a" "new" Method.POST) [] noFS "POST" "/a").response =
      respOK (getBody "new" noFS).fst "text/html" := by
  have h := c7_reregistration_overwrites [] "/a" "old" "new" Method.GET Method.POST
  exact ⟨h.1, h.2 "POST" [] noFS rfl⟩

/-- Claim C8: a session serves exactly one exchange per connection.  A
successful write completion shuts the transport down in both directions and
closes the session; the full trace of a successful exchange is exactly
read, write, shutdown; and no completion handler ever issues a read (the
single read is issued by `start()`), so no further reads occur on the
connection. -/
theorem c8_single_exchange_then_shutdown (ec : Bool) (eps : Endpoints) (fs : FS)
    (cache : Cache) (tok path : String) (rest : List NetEvent) :
    sessionStep ec eps fs SState.awaitingWrite cache NetEvent.writeOk =
      (SState.closed, cache, [Action.shutdownBoth]) ∧
    sessionActions ec eps fs cache (NetEvent.readOk tok path :: NetEvent.writeOk :: rest) =
      [Action.issueRead,
       Action.issueWrite (handleRequest ec eps cache fs tok path).response,
       Action.shutdownBoth] ∧
    (∀ (st : SState) (c : Cache) (evs : List NetEvent),
        Action.issueRead ∉ (sessionRun ec eps fs st c evs).snd.snd) := by
  refine ⟨rfl, ?_, fun st c evs => sessionRun_no_read ec eps fs evs st c⟩
  simp [sessionActions, sessionRun, sessionStep, sessionStart, sessionRun_closed]

/-- Claim C9: a non-matching request leaves the cache unchanged; with caching
disabled the cache is neither written (it passes through) nor read (response
and logs are the same for any two caches); and the only way the cache changes
is the matched, cache-enabled, cache-miss branch prepending the freshly
rendered 200 response keyed by the method token — so 404 responses are never
cached. -/
theorem c9_cache_frame_conditions :
    (∀ (ec : Bool) (eps : Endpoints) (cache : Cache) (fs : FS) (tok path : String),
        isMatch eps tok path = false →
        (handleRequest ec eps cache fs tok path).cache = cache) ∧
    (∀ (eps : Endpoints) (cache : Cache) (fs : FS) (tok path : String),
        (handleRequest false eps cache fs tok path).cache = cache) ∧
    (∀ (eps : Endpoints) (c1 c2 : Cache) (fs : FS) (tok path : String),
        (handleRequest false eps c1 fs tok path).response =
          (handleRequest false eps c2 fs tok path).response ∧
        (handleRequest false eps c1 fs tok path).logs =
          (handleRequest false eps c2 fs tok path).logs) ∧
    (∀ (ec : Bool) (eps : Endpoints) (cache : Cache) (fs : FS) (tok path : String),
        (handleRequest ec eps cache fs tok path).cache = cache ∨
        ∃ src m, List.lookup path eps = some (src, m) ∧ parseMethod tok = m ∧
          ec = true ∧ List.lookup tok cache = none ∧
          (handleRequest ec eps cache fs tok path).cache =
            (tok, respOK (getBody src fs).fst "text/html") :: cache) := by
  refine ⟨?_, ?_, ?_, handleRequest_cache_characterize⟩
  · intro ec eps cache fs tok path h
    rw [handleRequest_not_match ec eps cache fs tok path h]
    rfl
  · intro eps cache fs tok path
    rcases handleRequest_cache_characterize false eps cache fs tok path with
      h | ⟨_, _, _, _, hec, _, _⟩
    · exact h
    · exact absurd hec (by simp)
  · intro eps c1 c2 fs tok path
    cases hl : List.lookup path eps with
    | none =>
      rw [handleRequest_not_match false eps c1 fs tok path (by simp [isMatch, hl]),
          handleRequest_not_match false eps c2 fs tok path (by simp [isMatch, hl])]
      exact ⟨rfl, rfl⟩
    | some sm =>
      obtain ⟨src, m⟩ := sm
      by_cases hm : parseMethod tok = m
      · rw [handleRequest_miss false eps c1 fs tok path src m hl hm (by simp),
            handleRequest_miss false eps c2 fs tok path src m hl hm (by simp)]
        exact ⟨rfl, rfl⟩
      · rw [handleRequest_not_match false eps c1 fs tok path (by simp [isMatch, hl, hm]),
            handleRequest_not_match false eps c2 fs tok path (by simp [isMatch, hl, hm])]
        exact ⟨rfl, rfl⟩

/-- Witness for C9: a 404 request with caching enabled leaves the empty cache
empty, and a matching request with caching disabled also leaves it empty. -/
theorem c9_cache_frame_conditions_witness :
    isMatch epsAB "GET" "/nope" = false ∧
    (handleRequest true epsAB [] noFS "GET" "/nope").cache = [] ∧
    (handleRequest false epsAB [] noFS "GET" "/a").cache = [] :=
  ⟨by decide, c9_cache_frame_conditions.1 true epsAB [] noFS "GET" "/nope" (by decide),
    c9_cache_frame_conditions.2.1 epsAB [] noFS "GET" "/a"⟩

/-- Claim C10: the default not-found body "404 Not Found!" is exactly 14
bytes, so for the not-found response the session actually produces, the fixed
`Content-Length: 14` equals the true byte length of the body. -/
theorem c10_default_body_is_fourteen_bytes :
    notOkDefaultBody.utf8ByteSize = 14 ∧
    respNotOk notOkDefaultBody =
      "HTTP/1.1 404 Not Found\r\nContent-Length: " ++
        toString notOkDefaultBody.utf8ByteSize ++ "\r\n\r\n" ++ notOkDefaultBody :=
  ⟨by decide, by decide⟩

end ServeMe
